import Mathlib

/-!
Shallow embedding of the deal-generation pipeline of `src/02_build_deals.py`
(stedi-gtm-company).  Every random draw the Python code takes from the shared
seeded generator `rng` (and the one non-seeded source, `uuid.uuid4()`) is made
an explicit parameter: probability-like draws are rationals, date offsets are
integers, the uuid is a string.  Timestamps are modelled as integers (days);
pandas `NaT` becomes `Option.none`.
-/

namespace Funnel

/-- A company row of `data/raw/companies.csv`, with the fields
`process_company_deal` reads. -/
structure Company where
  account_id : String
  created_date : ℤ
  icp : Bool
  icp_confidence : ℚ
  is_prev_stedi_customer : Bool
  tech_stack_confidence : ℚ
  employee_band : String
  health_tech : String

/-- The random draws the Python code consumes for one company, in stream
order.  `createBaseline`/`winBaseline` are the `rng.beta` draws,
`createJitter`/`winJitter` the `exp(rng.normal)` factors, the `*Roll` fields
the `rng.random()` Bernoulli rolls, the `*Draw` fields the `rng.lognormal`
duration draws, the `*LostOffset` fields the `rng.integers` offsets, and
`ownerIdx` the index drawn by `rng.choice`. -/
structure Draws where
  createBaseline : ℚ
  createJitter : ℚ
  winBaseline : ℚ
  winJitter : ℚ
  createRoll : ℚ
  ownerIdx : ℕ
  createdOffset : ℤ
  baseScaleJitter : ℚ
  evalMultJitter : ℚ
  negoMultJitter : ℚ
  discoveryDraw : ℚ
  evaluationDraw : ℚ
  proposalDraw : ℚ
  negotiationDraw : ℚ
  leakEvalBase : ℚ
  leakPropBase : ℚ
  leakNegBase : ℚ
  leakEvalRoll : ℚ
  leakPropRoll : ℚ
  leakNegRoll : ℚ
  winRoll : ℚ
  evalLostOffset : ℕ
  propLostOffset : ℕ
  negLostOffset : ℕ
  wonCloseDraw : ℚ
  lostCloseDraw : ℚ

/-- The deal record assembled at the end of `process_company_deal`. -/
structure Deal where
  deal_id : String
  account_id : String
  owner : String
  created_date : ℤ
  stage_date_discovery : Option ℤ
  stage_date_evaluation : Option ℤ
  stage_date_proposal : Option ℤ
  stage_date_negotiation : Option ℤ
  stage_date_closed_won : Option ℤ
  stage_date_closed_lost : Option ℤ
deriving DecidableEq

/-- `SALES_OWNERS` roster. -/
def SALES_OWNERS : List String :=
  ["Marissa", "Maria", "Henry", "Isabella", "Jack", "Katherine", "Luke", "Mary",
   "Noah", "Olivia", "Peter", "Quinn", "Rachel", "Samuel", "Taylor", "William", "Zachary"]

/-- `DURATION_BY_BAND` table. -/
def DURATION_BY_BAND : List (String × ℚ) :=
  [("2-10", 90/100), ("11-50", 1), ("51-200", 110/100), ("201-500", 118/100),
   ("501-1000", 122/100), ("1001-5000", 130/100), ("5001-10000", 138/100),
   ("10001+", 145/100)]

/-- `WIN_MULT_BY_BAND` table. -/
def WIN_MULT_BY_BAND : List (String × ℚ) :=
  [("2-10", 1), ("11-50", 1), ("51-200", 1), ("201-500", 97/100),
   ("501-1000", 95/100), ("1001-5000", 92/100), ("5001-10000", 90/100),
   ("10001+", 88/100)]

def ICP_CREATE_MULT : ℚ := 30/100
def ICP_WIN_MULT : ℚ := 40/100
def X12_CLR_MULT : ℚ := 120/100
def FHIR_MULT : ℚ := 110/100
def X12_CLR_WIN_MULT : ℚ := 125/100
def FHIR_WIN_MULT : ℚ := 110/100
def PREV_CUSTOMER_CREATE_MIN : ℚ := 85/100
def PREV_CUSTOMER_WIN_MIN : ℚ := 70/100
def PREV_CUSTOMER_DURATION_MULT : ℚ := 85/100
def EVAL_MULT_X12_CLR : ℚ := 110/100
def NEGO_MULT_X12_CLR : ℚ := 115/100
def NEGO_MULT_FHIR : ℚ := 105/100

/-- Association-list lookup (Python `dict.get`). -/
def dictGet : List (String × ℚ) → String → Option ℚ
  | [], _ => none
  | (k, v) :: rest, key => if k = key then some v else dictGet rest key

/-- `get_band_multiplier`: dictionary lookup with default `1.0`. -/
def get_band_multiplier (band_label : String) (multiplier_dict : List (String × ℚ)) : ℚ :=
  match dictGet multiplier_dict band_label with
  | some v => v
  | none => 1

/-- Does `needle` occur at the head of `haystack`? (helper for substring search). -/
def leadsList : List Char → List Char → Bool
  | [], _ => true
  | _ :: _, [] => false
  | a :: as, b :: bs => a == b && leadsList as bs

/-- Does `needle` occur anywhere in `haystack`? (Python `in` on strings). -/
def hasSubList : List Char → List Char → Bool
  | needle, [] => leadsList needle []
  | needle, b :: bs => leadsList needle (b :: bs) || hasSubList needle bs

/-- Python `needle in haystack` on strings (as char lists). -/
def strContains (haystack : List Char) (needle : String) : Bool :=
  hasSubList needle.data haystack

/-- Python `str.lower()`, per character. -/
def lowerStr (s : String) : List Char :=
  s.data.map Char.toLower

def x12_codes : List String := ["x12", "270", "271", "276", "277", "278", "835", "837"]

def clearinghouse_terms : List String :=
  ["clearinghouse", "availity", "edifecs", "change healthcare", "optum"]

/-- `parse_health_tech`: case-insensitive keyword search over the free-text
technology field, returning `(has_x12, has_fhir, has_clearinghouse)`. -/
def parse_health_tech (health_tech_str : String) : Bool × Bool × Bool :=
  let tech_str := lowerStr health_tech_str
  let has_x12 := x12_codes.any (fun code => strContains tech_str code)
  let has_fhir := strContains tech_str "fhir" || strContains tech_str "hl7"
  let has_clearinghouse := clearinghouse_terms.any (fun term => strContains tech_str term)
  (has_x12, has_fhir, has_clearinghouse)

/-- `clamp(value, min_val, max_val) = max(min_val, min(max_val, value))`. -/
def clamp (value : ℚ) (min_val : ℚ) (max_val : ℚ) : ℚ :=
  max min_val (min max_val value)

/-- Python `int()` on a rational value: truncation toward zero. -/
def pyInt (x : ℚ) : ℤ :=
  if 0 ≤ x then ⌊x⌋ else ⌈x⌉

/-- `calculate_create_probability`.  `baselineDraw` is the `rng.beta(1.6, 3.0)`
draw and `jitterDraw` the `exp(rng.normal(0, 0.12))` factor. -/
def calculate_create_probability (icp : Bool) (icp_confidence : ℚ) (prev_customer : Bool)
    (has_x12 : Bool) (has_fhir : Bool) (has_clearinghouse : Bool)
    (stack_confidence : ℚ) (baselineDraw jitterDraw : ℚ) : ℚ :=
  let baseline := baselineDraw * jitterDraw
  let multiplier : ℚ := 1
  let multiplier := if icp then multiplier * (1 + ICP_CREATE_MULT * icp_confidence)
                    else multiplier
  let multiplier := if has_x12 || has_clearinghouse then multiplier * X12_CLR_MULT
                    else if has_fhir then multiplier * FHIR_MULT
                    else multiplier
  let multiplier := multiplier * (6/10 + 4/10 * stack_confidence)
  let probability := baseline * multiplier
  let probability := if prev_customer then max probability PREV_CUSTOMER_CREATE_MIN
                     else probability
  clamp probability (3/100) (97/100)

/-- `calculate_win_probability`.  `baselineDraw` is the `rng.beta(1.5, 4.0)`
draw and `jitterDraw` the `exp(rng.normal(0, 0.12))` factor. -/
def calculate_win_probability (icp : Bool) (icp_confidence : ℚ) (prev_customer : Bool)
    (has_x12 : Bool) (has_fhir : Bool) (has_clearinghouse : Bool)
    (stack_confidence : ℚ) (band_label : String) (baselineDraw jitterDraw : ℚ) : ℚ :=
  let baseline := baselineDraw * jitterDraw
  let multiplier : ℚ := 1
  let multiplier := if icp then multiplier * (1 + ICP_WIN_MULT * icp_confidence)
                    else multiplier
  let multiplier := if has_x12 || has_clearinghouse then multiplier * X12_CLR_WIN_MULT
                    else if has_fhir then multiplier * FHIR_WIN_MULT
                    else multiplier
  let multiplier := multiplier * get_band_multiplier band_label WIN_MULT_BY_BAND
  let multiplier := multiplier * (6/10 + 4/10 * stack_confidence)
  let probability := baseline * multiplier
  let probability := if prev_customer then max probability PREV_CUSTOMER_WIN_MIN
                     else probability
  clamp probability (2/100) (98/100)

/-- `calculate_duration_scales`.  The three `jitter*` arguments are the
`add_jitter(0.08)`, `add_jitter(0.06)`, `add_jitter(0.06)` draws. -/
def calculate_duration_scales (band_label : String) (prev_customer : Bool)
    (has_x12_or_clearinghouse : Bool) (has_fhir : Bool)
    (jitterBase jitterEval jitterNego : ℚ) : ℚ × ℚ × ℚ :=
  let base_scale := get_band_multiplier band_label DURATION_BY_BAND
  let base_scale := if prev_customer then base_scale * PREV_CUSTOMER_DURATION_MULT
                    else base_scale
  let eval_mult := if has_x12_or_clearinghouse || has_fhir then EVAL_MULT_X12_CLR else 1
  let nego_mult := if has_x12_or_clearinghouse then NEGO_MULT_X12_CLR
                   else if has_fhir then NEGO_MULT_FHIR
                   else 1
  (base_scale * jitterBase, eval_mult * jitterEval, nego_mult * jitterNego)

/-- `calculate_leakage_rates`.  The three `base*` arguments are the
`rng.beta(2.5, 20.0)` / `rng.beta(2.5, 18.0)` draws. -/
def calculate_leakage_rates (icp : Bool) (prev_customer : Bool)
    (has_x12_or_clearinghouse : Bool) (base_eval base_prop base_neg : ℚ) : ℚ × ℚ × ℚ :=
  let adjustment : ℚ := 1
  let adjustment := if icp then adjustment * (85/100) else adjustment
  let adjustment := if prev_customer then adjustment * (70/100) else adjustment
  let adjustment := if has_x12_or_clearinghouse then adjustment * (90/100) else adjustment
  (clamp (base_eval * adjustment) (2/100) (25/100),
   clamp (base_prop * adjustment) (3/100) (30/100),
   clamp (base_neg * adjustment) (3/100) (30/100))

/-- The create-probability `process_company_deal` computes for a company
(lines 199-200 of the source). -/
def companyCreateProb (c : Company) (d : Draws) : ℚ :=
  let pht := parse_health_tech c.health_tech
  calculate_create_probability c.icp c.icp_confidence c.is_prev_stedi_customer
    pht.1 pht.2.1 pht.2.2 c.tech_stack_confidence d.createBaseline d.createJitter

/-- The win-probability `process_company_deal` computes for a company
(lines 201-203 of the source). -/
def companyWinProb (c : Company) (d : Draws) : ℚ :=
  let pht := parse_health_tech c.health_tech
  calculate_win_probability c.icp c.icp_confidence c.is_prev_stedi_customer
    pht.1 pht.2.1 pht.2.2 c.tech_stack_confidence c.employee_band d.winBaseline d.winJitter

/-- The leakage-rate triple `process_company_deal` computes for a company
(lines 233-234 of the source). -/
def companyLeakRates (c : Company) (d : Draws) : ℚ × ℚ × ℚ :=
  let pht := parse_health_tech c.health_tech
  calculate_leakage_rates c.icp c.is_prev_stedi_customer (pht.1 || pht.2.2)
    d.leakEvalBase d.leakPropBase d.leakNegBase

/-- `process_company_deal`: returns `none` when the create trial fails, else
the fully assembled deal record.  `uuid` is the `uuid.uuid4()` string, which
the Python code obtains OUTSIDE the seeded generator stream. -/
def process_company_deal (c : Company) (d : Draws) (uuid : String) : Option Deal :=
  let pht := parse_health_tech c.health_tech
  let has_x12_or_clearinghouse := pht.1 || pht.2.2
  let create_prob := companyCreateProb c d
  let win_prob := companyWinProb c d
  if d.createRoll ≥ create_prob then none
  else
    let deal_id := uuid
    let owner := SALES_OWNERS.getD (d.ownerIdx % SALES_OWNERS.length) ""
    let created_date := max (c.created_date + d.createdOffset) c.created_date
    let scales := calculate_duration_scales c.employee_band c.is_prev_stedi_customer
      has_x12_or_clearinghouse pht.2.1 d.baseScaleJitter d.evalMultJitter d.negoMultJitter
    let base_scale := scales.1
    let eval_mult := scales.2.1
    let nego_mult := scales.2.2
    let discovery_days := max 1 (pyInt (d.discoveryDraw * base_scale))
    let evaluation_days := max 1 (pyInt (d.evaluationDraw * base_scale * eval_mult))
    let proposal_days := max 1 (pyInt (d.proposalDraw * base_scale))
    let negotiation_days := max 1 (pyInt (d.negotiationDraw * base_scale * nego_mult))
    let discovery_date := created_date + discovery_days
    let evaluation_date := discovery_date + evaluation_days
    let proposal_date := evaluation_date + proposal_days
    let negotiation_date := proposal_date + negotiation_days
    let rates := companyLeakRates c d
    if d.leakEvalRoll < rates.1 then
      some { deal_id := deal_id, account_id := c.account_id, owner := owner,
             created_date := created_date,
             stage_date_discovery := some discovery_date,
             stage_date_evaluation := none,
             stage_date_proposal := none,
             stage_date_negotiation := none,
             stage_date_closed_won := none,
             stage_date_closed_lost := some (discovery_date + (d.evalLostOffset : ℤ)) }
    else if d.leakPropRoll < rates.2.1 then
      some { deal_id := deal_id, account_id := c.account_id, owner := owner,
             created_date := created_date,
             stage_date_discovery := some discovery_date,
             stage_date_evaluation := some evaluation_date,
             stage_date_proposal := none,
             stage_date_negotiation := none,
             stage_date_closed_won := none,
             stage_date_closed_lost := some (evaluation_date + (d.propLostOffset : ℤ)) }
    else if d.leakNegRoll < rates.2.2 then
      some { deal_id := deal_id, account_id := c.account_id, owner := owner,
             created_date := created_date,
             stage_date_discovery := some discovery_date,
             stage_date_evaluation := some evaluation_date,
             stage_date_proposal := some proposal_date,
             stage_date_negotiation := none,
             stage_date_closed_won := none,
             stage_date_closed_lost := some (proposal_date + (d.negLostOffset : ℤ)) }
    else if d.winRoll < win_prob then
      let close_days := max 1 (pyInt (d.wonCloseDraw * base_scale))
      let close_days := if c.is_prev_stedi_customer
                        then max 1 (pyInt ((close_days : ℚ) * (8/10)))
                        else close_days
      some { deal_id := deal_id, account_id := c.account_id, owner := owner,
             created_date := created_date,
             stage_date_discovery := some discovery_date,
             stage_date_evaluation := some evaluation_date,
             stage_date_proposal := some proposal_date,
             stage_date_negotiation := some negotiation_date,
             stage_date_closed_won := some (negotiation_date + close_days),
             stage_date_closed_lost := none }
    else
      let lose_days := max 1 (pyInt (d.lostCloseDraw * base_scale))
      some { deal_id := deal_id, account_id := c.account_id, owner := owner,
             created_date := created_date,
             stage_date_discovery := some discovery_date,
             stage_date_evaluation := some evaluation_date,
             stage_date_proposal := some proposal_date,
             stage_date_negotiation := some negotiation_date,
             stage_date_closed_won := none,
             stage_date_closed_lost := some (negotiation_date + lose_days) }

/-- A deal record with the `deal_id` field blanked: the part of the output
that must be a function of the seeded stream alone. -/
def eraseDealId (deal : Deal) : Deal :=
  { deal with deal_id := "" }

/-- `later` is at least one day after `earlier` whenever both timestamps are
present. -/
def dayAfter (earlier later : Option ℤ) : Prop :=
  ∀ x y, earlier = some x → later = some y → x + 1 ≤ y

/-! ## Concrete inputs used by witnesses and counterexamples -/

/-- A company with no signals: not ICP, not a prior customer, empty
technology text, mid-size band. -/
def companyA : Company :=
  { account_id := "acct-1", created_date := 0, icp := false, icp_confidence := 0,
    is_prev_stedi_customer := false, tech_stack_confidence := 0,
    employee_band := "11-50", health_tech := "" }

/-- A draw record on which the create trial succeeds, no leakage checkpoint
fires, and the win trial succeeds. -/
def drawsWin : Draws :=
  { createBaseline := 0, createJitter := 0, winBaseline := 1, winJitter := 1,
    createRoll := 0, ownerIdx := 0, createdOffset := 10,
    baseScaleJitter := 0, evalMultJitter := 0, negoMultJitter := 0,
    discoveryDraw := 0, evaluationDraw := 0, proposalDraw := 0, negotiationDraw := 0,
    leakEvalBase := 0, leakPropBase := 0, leakNegBase := 0,
    leakEvalRoll := 1, leakPropRoll := 1, leakNegRoll := 1,
    winRoll := 0, evalLostOffset := 1, propLostOffset := 1, negLostOffset := 1,
    wonCloseDraw := 0, lostCloseDraw := 0 }

/-- Same draw record, except the evaluation-checkpoint leakage trial fires. -/
def drawsLeakEval : Draws :=
  { drawsWin with leakEvalRoll := 0 }

/-- The deal `process_company_deal companyA drawsWin id` produces. -/
def dealWon (id : String) : Deal :=
  { deal_id := id, account_id := "acct-1", owner := "Marissa", created_date := 10,
    stage_date_discovery := some 11, stage_date_evaluation := some 12,
    stage_date_proposal := some 13, stage_date_negotiation := some 14,
    stage_date_closed_won := some 15, stage_date_closed_lost := none }

/-- The deal `process_company_deal companyA drawsLeakEval id` produces. -/
def dealLeakedAtEval (id : String) : Deal :=
  { deal_id := id, account_id := "acct-1", owner := "Marissa", created_date := 10,
    stage_date_discovery := some 11, stage_date_evaluation := none,
    stage_date_proposal := none, stage_date_negotiation := none,
    stage_date_closed_won := none, stage_date_closed_lost := some 12 }

/-! ## Helper lemmas -/

lemma le_clamp (v lo hi : ℚ) : lo ≤ clamp v lo hi :=
  le_max_left lo _

lemma clamp_le (v lo hi : ℚ) (h : lo ≤ hi) : clamp v lo hi ≤ hi :=
  max_le h (min_le_left _ _)

lemma floor_le_clamp (v lo hi : ℚ) (hv : v ≤ hi) (u : ℚ) : v ≤ clamp (max u v) lo hi :=
  le_trans (le_min hv (le_max_right u v)) (le_max_right lo _)

lemma clamp_lt_clamp (x1 x2 lo hi : ℚ) (hlohi : lo < hi) (h1 : lo < x2) (h2 : x1 < hi)
    (h12 : x1 < x2) : clamp x1 lo hi < clamp x2 lo hi := by
  unfold clamp
  rcases le_or_lt x2 hi with hc | hc
  · rw [min_eq_right h2.le, min_eq_right hc, max_eq_right h1.le]
    exact max_lt h1 h12
  · rw [min_eq_right h2.le, min_eq_left hc.le, max_eq_right hlohi.le]
    exact max_lt hlohi h2

lemma processWon (id : String) :
    process_company_deal companyA drawsWin id = some (dealWon id) := by
  norm_num +decide [process_company_deal, companyCreateProb, companyWinProb,
    companyLeakRates, calculate_create_probability, calculate_win_probability,
    calculate_duration_scales, calculate_leakage_rates, parse_health_tech,
    lowerStr, strContains, hasSubList, leadsList, x12_codes, clearinghouse_terms,
    get_band_multiplier, dictGet, WIN_MULT_BY_BAND, DURATION_BY_BAND, SALES_OWNERS,
    clamp, pyInt, companyA, drawsWin, dealWon, max_def, min_def, List.getD,
    ICP_CREATE_MULT, ICP_WIN_MULT, X12_CLR_MULT, FHIR_MULT, X12_CLR_WIN_MULT,
    FHIR_WIN_MULT, PREV_CUSTOMER_CREATE_MIN, PREV_CUSTOMER_WIN_MIN,
    PREV_CUSTOMER_DURATION_MULT, EVAL_MULT_X12_CLR, NEGO_MULT_X12_CLR, NEGO_MULT_FHIR]

lemma processLeakEval (id : String) :
    process_company_deal companyA drawsLeakEval id = some (dealLeakedAtEval id) := by
  norm_num +decide [process_company_deal, companyCreateProb, companyWinProb,
    companyLeakRates, calculate_create_probability, calculate_win_probability,
    calculate_duration_scales, calculate_leakage_rates, parse_health_tech,
    lowerStr, strContains, hasSubList, leadsList, x12_codes, clearinghouse_terms,
    get_band_multiplier, dictGet, WIN_MULT_BY_BAND, DURATION_BY_BAND, SALES_OWNERS,
    clamp, pyInt, companyA, drawsWin, drawsLeakEval, dealLeakedAtEval, max_def,
    min_def, List.getD,
    ICP_CREATE_MULT, ICP_WIN_MULT, X12_CLR_MULT, FHIR_MULT, X12_CLR_WIN_MULT,
    FHIR_WIN_MULT, PREV_CUSTOMER_CREATE_MIN, PREV_CUSTOMER_WIN_MIN,
    PREV_CUSTOMER_DURATION_MULT, EVAL_MULT_X12_CLR, NEGO_MULT_X12_CLR, NEGO_MULT_FHIR]

lemma leakRatesWin :
    companyLeakRates companyA drawsWin = (1/50, 3/100, 3/100) := by
  norm_num +decide [companyLeakRates, calculate_leakage_rates, parse_health_tech,
    lowerStr, strContains, hasSubList, leadsList, x12_codes, clearinghouse_terms,
    clamp, companyA, drawsWin, max_def, min_def]

lemma leakRatesLeakEval :
    companyLeakRates companyA drawsLeakEval = (1/50, 3/100, 3/100) := by
  norm_num +decide [companyLeakRates, calculate_leakage_rates, parse_health_tech,
    lowerStr, strContains, hasSubList, leadsList, x12_codes, clearinghouse_terms,
    clamp, companyA, drawsWin, drawsLeakEval, max_def, min_def]

/-! ## Claim theorems -/

/-- C4: for every combination of flags, confidences, band label and random
draws, `calculate_create_probability` returns a value in `[0.03, 0.97]` and
`calculate_win_probability` returns a value in `[0.02, 0.98]`. -/
theorem probabilities_within_clamp_intervals (icp : Bool) (conf : ℚ) (prev : Bool)
    (x12 fhir clr : Bool) (stack : ℚ) (b j : ℚ) (band : String) (wb wj : ℚ) :
    (3/100 ≤ calculate_create_probability icp conf prev x12 fhir clr stack b j ∧
      calculate_create_probability icp conf prev x12 fhir clr stack b j ≤ 97/100) ∧
    (2/100 ≤ calculate_win_probability icp conf prev x12 fhir clr stack band wb wj ∧
      calculate_win_probability icp conf prev x12 fhir clr stack band wb wj ≤ 98/100) := by
  refine ⟨⟨?_, ?_⟩, ⟨?_, ?_⟩⟩
  · exact le_clamp _ _ _
  · exact clamp_le _ _ _ (by norm_num)
  · exact le_clamp _ _ _
  · exact clamp_le _ _ _ (by norm_num)

/-- C5: with the prior-customer flag set, the create-probability is at least
`0.85` and the win-probability at least `0.70`, whatever the other flags,
confidences, band and draws are: the floors survive the final clamp. -/
theorem prev_customer_floors (icp : Bool) (conf : ℚ) (x12 fhir clr : Bool) (stack : ℚ)
    (b j : ℚ) (band : String) (wb wj : ℚ) :
    85/100 ≤ calculate_create_probability icp conf true x12 fhir clr stack b j ∧
    70/100 ≤ calculate_win_probability icp conf true x12 fhir clr stack band wb wj := by
  constructor
  · simp only [calculate_create_probability, PREV_CUSTOMER_CREATE_MIN, if_true]
    exact floor_le_clamp _ _ _ (by norm_num) _
  · simp only [calculate_win_probability, PREV_CUSTOMER_WIN_MIN, if_true]
    exact floor_le_clamp _ _ _ (by norm_num) _

/-- C8: for every flag combination and every random draw,
`calculate_leakage_rates` returns an evaluation-leak rate in `[0.02, 0.25]`
and proposal- and negotiation-leak rates in `[0.03, 0.30]`. -/
theorem leakage_rates_within_bounds (icp prev clr : Bool) (be bp bn : ℚ) :
    (2/100 ≤ (calculate_leakage_rates icp prev clr be bp bn).1 ∧
      (calculate_leakage_rates icp prev clr be bp bn).1 ≤ 25/100) ∧
    (3/100 ≤ (calculate_leakage_rates icp prev clr be bp bn).2.1 ∧
      (calculate_leakage_rates icp prev clr be bp bn).2.1 ≤ 30/100) ∧
    (3/100 ≤ (calculate_leakage_rates icp prev clr be bp bn).2.2 ∧
      (calculate_leakage_rates icp prev clr be bp bn).2.2 ≤ 30/100) := by
  simp only [calculate_leakage_rates]
  exact ⟨⟨le_clamp _ _ _, clamp_le _ _ _ (by norm_num)⟩,
    ⟨le_clamp _ _ _, clamp_le _ _ _ (by norm_num)⟩,
    ⟨le_clamp _ _ _, clamp_le _ _ _ (by norm_num)⟩⟩

/-- C6 as stated is false: at a baseline draw of `0.01` and a jitter factor
of `1`, both the no-signal company and the `has_x12` company fall below the
lower clamp `0.03`, so both create-probabilities clamp to `0.03` and the
inequality is not strict. -/
theorem rail_boost_not_strict_at_clamp :
    ¬ calculate_create_probability false 0 false false false false 0 (1/100) 1 <
      calculate_create_probability false 0 false true false false 0 (1/100) 1 := by
  have e1 : calculate_create_probability false 0 false false false false 0 (1/100) 1
      = 3/100 := by
    norm_num [calculate_create_probability, clamp, X12_CLR_MULT, FHIR_MULT,
      ICP_CREATE_MULT, PREV_CUSTOMER_CREATE_MIN, max_def, min_def]
  have e2 : calculate_create_probability false 0 false true false false 0 (1/100) 1
      = 3/100 := by
    norm_num [calculate_create_probability, clamp, X12_CLR_MULT, FHIR_MULT,
      ICP_CREATE_MULT, PREV_CUSTOMER_CREATE_MIN, max_def, min_def]
  rw [e1, e2]
  exact lt_irrefl _

/-- C6 amended: for a fixed baseline draw `b` and jitter draw `j`, the
no-signal, no-icp, zero-stack-confidence, non-prior company has a
create-probability strictly below the company identical except for
`has_x12 = true`, PROVIDED neither side is pinned to the same clamp
boundary: the boosted pre-clamp value `b*j*0.72` must exceed `0.03` and the
unboosted pre-clamp value `b*j*0.6` must stay below `0.97`. -/
theorem rail_boost_strict_within_clamp (b j : ℚ)
    (h1 : 3/100 < b * j * (72/100)) (h2 : b * j * (6/10) < 97/100) :
    calculate_create_probability false 0 false false false false 0 b j <
      calculate_create_probability false 0 false true false false 0 b j := by
  have e1 : calculate_create_probability false 0 false false false false 0 b j
      = clamp (b * j * (6/10)) (3/100) (97/100) := by
    simp only [calculate_create_probability, X12_CLR_MULT, FHIR_MULT,
      ICP_CREATE_MULT, PREV_CUSTOMER_CREATE_MIN]
    norm_num
  have e2 : calculate_create_probability false 0 false true false false 0 b j
      = clamp (b * j * (72/100)) (3/100) (97/100) := by
    simp only [calculate_create_probability, X12_CLR_MULT, FHIR_MULT,
      ICP_CREATE_MULT, PREV_CUSTOMER_CREATE_MIN]
    norm_num
  rw [e1, e2]
  exact clamp_lt_clamp _ _ _ _ (by norm_num) h1 h2 (by nlinarith)

/-- C6 amended, witness: at baseline `1/2` and jitter `1` the hypotheses hold
and the strict boost is realized. -/
theorem rail_boost_strict_within_clamp_witness :
    calculate_create_probability false 0 false false false false 0 (1/2) 1 <
      calculate_create_probability false 0 false true false false 0 (1/2) 1 :=
  rail_boost_strict_within_clamp (1/2) 1 (by norm_num) (by norm_num)

/-- C2: every deal record `process_company_deal` emits has exactly one of the
two terminal timestamps set: either closed-won is present and closed-lost
absent, or the other way round — never both, never neither. -/
theorem terminal_outcome_exclusive (c : Company) (d : Draws) (u : String) (deal : Deal)
    (hp : process_company_deal c d u = some deal) :
    ((∃ t, deal.stage_date_closed_won = some t) ∧ deal.stage_date_closed_lost = none) ∨
    (deal.stage_date_closed_won = none ∧ ∃ t, deal.stage_date_closed_lost = some t) := by
  simp only [process_company_deal] at hp
  split at hp
  · exact Option.noConfusion hp
  · split at hp
    · injection hp with hp
      subst hp
      exact Or.inr ⟨rfl, _, rfl⟩
    · split at hp
      · injection hp with hp
        subst hp
        exact Or.inr ⟨rfl, _, rfl⟩
      · split at hp
        · injection hp with hp
          subst hp
          exact Or.inr ⟨rfl, _, rfl⟩
        · split at hp
          · injection hp with hp
            subst hp
            exact Or.inl ⟨⟨_, rfl⟩, rfl⟩
          · injection hp with hp
            subst hp
            exact Or.inr ⟨rfl, _, rfl⟩

/-- C2, witness: the deal produced from `companyA` under `drawsWin` has a
closed-won date and no closed-lost date. -/
theorem terminal_outcome_exclusive_witness :
    ((∃ t, (dealWon "run-1").stage_date_closed_won = some t) ∧
      (dealWon "run-1").stage_date_closed_lost = none) ∨
    ((dealWon "run-1").stage_date_closed_won = none ∧
      ∃ t, (dealWon "run-1").stage_date_closed_lost = some t) :=
  terminal_outcome_exclusive companyA drawsWin "run-1" (dealWon "run-1") (processWon "run-1")

/-- C3: left truncation — in every emitted deal record, a null stage
timestamp is followed only by null stage timestamps, in the order discovery,
evaluation, proposal, negotiation. -/
theorem stage_left_truncation (c : Company) (d : Draws) (u : String) (deal : Deal)
    (hp : process_company_deal c d u = some deal) :
    (deal.stage_date_discovery = none → deal.stage_date_evaluation = none ∧
      deal.stage_date_proposal = none ∧ deal.stage_date_negotiation = none) ∧
    (deal.stage_date_evaluation = none → deal.stage_date_proposal = none ∧
      deal.stage_date_negotiation = none) ∧
    (deal.stage_date_proposal = none → deal.stage_date_negotiation = none) := by
  simp only [process_company_deal] at hp
  split at hp
  · exact Option.noConfusion hp
  · split at hp
    · injection hp with hp
      subst hp
      simp
    · split at hp
      · injection hp with hp
        subst hp
        simp
      · split at hp
        · injection hp with hp
          subst hp
          simp
        · split at hp
          · injection hp with hp
            subst hp
            simp
          · injection hp with hp
            subst hp
            simp

/-- C3, witness: the deal produced from `companyA` under `drawsLeakEval` has
its evaluation timestamp null and all later stage timestamps null. -/
theorem stage_left_truncation_witness :
    ((dealLeakedAtEval "run-1").stage_date_discovery = none →
      (dealLeakedAtEval "run-1").stage_date_evaluation = none ∧
      (dealLeakedAtEval "run-1").stage_date_proposal = none ∧
      (dealLeakedAtEval "run-1").stage_date_negotiation = none) ∧
    ((dealLeakedAtEval "run-1").stage_date_evaluation = none →
      (dealLeakedAtEval "run-1").stage_date_proposal = none ∧
      (dealLeakedAtEval "run-1").stage_date_negotiation = none) ∧
    ((dealLeakedAtEval "run-1").stage_date_proposal = none →
      (dealLeakedAtEval "run-1").stage_date_negotiation = none) :=
  stage_left_truncation companyA drawsLeakEval "run-1" (dealLeakedAtEval "run-1")
    (processLeakEval "run-1")

/-- C9: in every emitted deal record, each non-null stage timestamp is at
least one day after its predecessor: created < discovery < evaluation <
proposal < negotiation over the non-null prefix, because every stage
duration is floored at one day. -/
theorem stage_dates_strictly_increasing (c : Company) (d : Draws) (u : String) (deal : Deal)
    (hp : process_company_deal c d u = some deal) :
    dayAfter (some deal.created_date) deal.stage_date_discovery ∧
    dayAfter deal.stage_date_discovery deal.stage_date_evaluation ∧
    dayAfter deal.stage_date_evaluation deal.stage_date_proposal ∧
    dayAfter deal.stage_date_proposal deal.stage_date_negotiation := by
  simp only [process_company_deal] at hp
  split at hp
  · exact Option.noConfusion hp
  · split at hp
    · injection hp with hp
      subst hp
      refine ⟨?_, ?_, ?_, ?_⟩ <;> intro x y hx hy <;>
        first
          | exact Option.noConfusion hy
          | (injection hx with hx
             injection hy with hy
             subst hx
             subst hy
             exact add_le_add_left (le_max_left 1 _) _)
    · split at hp
      · injection hp with hp
        subst hp
        refine ⟨?_, ?_, ?_, ?_⟩ <;> intro x y hx hy <;>
          first
            | exact Option.noConfusion hy
            | (injection hx with hx
               injection hy with hy
               subst hx
               subst hy
               exact add_le_add_left (le_max_left 1 _) _)
      · split at hp
        · injection hp with hp
          subst hp
          refine ⟨?_, ?_, ?_, ?_⟩ <;> intro x y hx hy <;>
            first
              | exact Option.noConfusion hy
              | (injection hx with hx
                 injection hy with hy
                 subst hx
                 subst hy
                 exact add_le_add_left (le_max_left 1 _) _)
        · split at hp
          · injection hp with hp
            subst hp
            refine ⟨?_, ?_, ?_, ?_⟩ <;> intro x y hx hy <;>
              (injection hx with hx
               injection hy with hy
               subst hx
               subst hy
               exact add_le_add_left (le_max_left 1 _) _)
          · injection hp with hp
            subst hp
            refine ⟨?_, ?_, ?_, ?_⟩ <;> intro x y hx hy <;>
              (injection hx with hx
               injection hy with hy
               subst hx
               subst hy
               exact add_le_add_left (le_max_left 1 _) _)

/-- C9, witness: the deal produced from `companyA` under `drawsWin` has its
stage dates one day apart in order. -/
theorem stage_dates_strictly_increasing_witness :
    dayAfter (some (dealWon "run-1").created_date) (dealWon "run-1").stage_date_discovery ∧
    dayAfter (dealWon "run-1").stage_date_discovery (dealWon "run-1").stage_date_evaluation ∧
    dayAfter (dealWon "run-1").stage_date_evaluation (dealWon "run-1").stage_date_proposal ∧
    dayAfter (dealWon "run-1").stage_date_proposal (dealWon "run-1").stage_date_negotiation :=
  stage_dates_strictly_increasing companyA drawsWin "run-1" (dealWon "run-1")
    (processWon "run-1")

/-- C10: when no leakage checkpoint fires, the emitted deal has a non-null
negotiation timestamp and exactly one terminal timestamp, at least one day
after negotiation: closed-won if the win trial succeeds, closed-lost
otherwise. -/
theorem no_leak_terminal_after_negotiation (c : Company) (d : Draws) (u : String)
    (deal : Deal) (hp : process_company_deal c d u = some deal)
    (hne : ¬ d.leakEvalRoll < (companyLeakRates c d).1)
    (hnp : ¬ d.leakPropRoll < (companyLeakRates c d).2.1)
    (hnn : ¬ d.leakNegRoll < (companyLeakRates c d).2.2) :
    ∃ n t, deal.stage_date_negotiation = some n ∧ n + 1 ≤ t ∧
      ((deal.stage_date_closed_won = some t ∧ deal.stage_date_closed_lost = none) ∨
       (deal.stage_date_closed_won = none ∧ deal.stage_date_closed_lost = some t)) := by
  simp only [process_company_deal] at hp
  rw [if_neg hne, if_neg hnp, if_neg hnn] at hp
  split at hp
  · exact Option.noConfusion hp
  · split at hp
    · injection hp with hp
      subst hp
      refine ⟨_, _, rfl, ?_, Or.inl ⟨rfl, rfl⟩⟩
      refine add_le_add_left ?_ _
      split
      · exact le_max_left 1 _
      · exact le_max_left 1 _
    · injection hp with hp
      subst hp
      exact ⟨_, _, rfl, add_le_add_left (le_max_left 1 _) _, Or.inr ⟨rfl, rfl⟩⟩

/-- C10, witness: under `drawsWin` no leakage roll is below its rate, and
the emitted deal closes won one day after negotiation. -/
theorem no_leak_terminal_after_negotiation_witness :
    ∃ n t, (dealWon "run-1").stage_date_negotiation = some n ∧ n + 1 ≤ t ∧
      (((dealWon "run-1").stage_date_closed_won = some t ∧
        (dealWon "run-1").stage_date_closed_lost = none) ∨
       ((dealWon "run-1").stage_date_closed_won = none ∧
        (dealWon "run-1").stage_date_closed_lost = some t)) :=
  no_leak_terminal_after_negotiation companyA drawsWin "run-1" (dealWon "run-1")
    (processWon "run-1")
    (by rw [leakRatesWin]; norm_num [drawsWin])
    (by rw [leakRatesWin]; norm_num [drawsWin])
    (by rw [leakRatesWin]; norm_num [drawsWin])

/-- C7: when the evaluation-checkpoint leakage trial fires (and its offset
draw is in the support of `rng.integers(1, 5)`), the emitted deal has null
evaluation, proposal, negotiation and closed-won timestamps, and a
closed-lost timestamp strictly between discovery and discovery + 5 days. -/
theorem eval_leak_shape (c : Company) (d : Draws) (u : String) (deal : Deal)
    (hp : process_company_deal c d u = some deal)
    (hfire : d.leakEvalRoll < (companyLeakRates c d).1)
    (ho1 : 1 ≤ d.evalLostOffset) (ho2 : d.evalLostOffset < 5) :
    deal.stage_date_evaluation = none ∧ deal.stage_date_proposal = none ∧
    deal.stage_date_negotiation = none ∧ deal.stage_date_closed_won = none ∧
    ∃ dd ld, deal.stage_date_discovery = some dd ∧
      deal.stage_date_closed_lost = some ld ∧ dd < ld ∧ ld < dd + 5 := by
  simp only [process_company_deal] at hp
  rw [if_pos hfire] at hp
  split at hp
  · exact Option.noConfusion hp
  · injection hp with hp
    subst hp
    refine ⟨rfl, rfl, rfl, rfl, _, _, rfl, rfl, ?_, ?_⟩ <;> omega

/-- C7, witness: under `drawsLeakEval` the evaluation leak fires with offset
1, and the emitted deal is lost one day after discovery. -/
theorem eval_leak_shape_witness :
    (dealLeakedAtEval "run-1").stage_date_evaluation = none ∧
    (dealLeakedAtEval "run-1").stage_date_proposal = none ∧
    (dealLeakedAtEval "run-1").stage_date_negotiation = none ∧
    (dealLeakedAtEval "run-1").stage_date_closed_won = none ∧
    ∃ dd ld, (dealLeakedAtEval "run-1").stage_date_discovery = some dd ∧
      (dealLeakedAtEval "run-1").stage_date_closed_lost = some ld ∧
      dd < ld ∧ ld < dd + 5 :=
  eval_leak_shape companyA drawsLeakEval "run-1" (dealLeakedAtEval "run-1")
    (processLeakEval "run-1")
    (by rw [leakRatesLeakEval]; norm_num [drawsLeakEval, drawsWin])
    (by norm_num [drawsLeakEval, drawsWin])
    (by norm_num [drawsLeakEval, drawsWin])

/-- C1 as stated is false: `deal_id` comes from `uuid.uuid4()`, which is not
drawn from the seeded generator, so two runs that share the seeded stream
(and hence every `rng` draw) can still emit different deal records — they
differ in `deal_id`. -/
theorem deal_id_not_reproducible :
    process_company_deal companyA drawsWin "run-1" ≠
      process_company_deal companyA drawsWin "run-2" := by
  rw [processWon "run-1", processWon "run-2"]
  decide

/-- C1 amended: with the seeded stream (all `rng` draws) fixed, every field
of the emitted record except `deal_id` is identical across runs, whatever
uuids the two runs draw; only `deal_id` escapes seed determinism. -/
theorem output_reproducible_except_deal_id (c : Company) (d : Draws) (u1 u2 : String) :
    (process_company_deal c d u1).map eraseDealId =
      (process_company_deal c d u2).map eraseDealId := by
  simp only [process_company_deal]
  by_cases h1 : d.createRoll ≥ companyCreateProb c d
  · simp [h1]
  · by_cases h2 : d.leakEvalRoll < (companyLeakRates c d).1
    · simp [h1, h2, eraseDealId]
    · by_cases h3 : d.leakPropRoll < (companyLeakRates c d).2.1
      · simp [h1, h2, h3, eraseDealId]
      · by_cases h4 : d.leakNegRoll < (companyLeakRates c d).2.2
        · simp [h1, h2, h3, h4, eraseDealId]
        · by_cases h5 : d.winRoll < companyWinProb c d
          · simp [h1, h2, h3, h4, h5, eraseDealId]
          · simp [h1, h2, h3, h4, h5, eraseDealId]

end Funnel
